import Mathlib

/-!
Verification of the sphero-rs packet codec (src/packet.rs, src/command.rs,
src/error.rs) against its natural-language specification.

Shallow embedding notes.
Bytes are modelled as Nat; machine arithmetic is made explicit with % 256
(u8) and % 65536 (u16).  The Rust structs derive DekuRead/DekuWrite; the
derived writer emits the fields in declaration order (an enum field emits
its one discriminant byte, a Vec field emits its elements) and the derived
reader consumes the fields in declaration order, failing on an enum
discriminant that matches no variant and failing when the input is too
short.  A "count" attribute such as count = "dlen - 1" evaluates the
expression in the field's integer type: the subtraction is the machine
subtraction, which wraps on underflow (release semantics; a debug build
panics instead).  The "update" attributes only take effect when update()
is called; they play no role in reading or writing, so the derived reader
performs no checksum verification.  deku serializes a bare u16 field with
the endianness of the target machine; every target this crate builds for
is little-endian, so the async dlen field is read and written low byte
first.
-/

/-- SOP1Field from src/packet.rs: single variant All = 0xff. -/
inductive SOP1Field
  | All
deriving DecidableEq

/-- Discriminant byte of an SOP1Field value. -/
def SOP1Field.toByte : SOP1Field → Nat
  | .All => 0xff

/-- Derived deku reader for SOP1Field: only 0xff matches. -/
def SOP1Field.fromByte (b : Nat) : Option SOP1Field :=
  if b = 0xff then some .All else none

/-- SOP2Field from src/packet.rs: Response = 0xff, Async = 0xfe. -/
inductive SOP2Field
  | Response
  | Async
deriving DecidableEq

/-- Discriminant byte of an SOP2Field value. -/
def SOP2Field.toByte : SOP2Field → Nat
  | .Response => 0xff
  | .Async => 0xfe

/-- Derived deku reader for SOP2Field. -/
def SOP2Field.fromByte (b : Nat) : Option SOP2Field :=
  if b = 0xff then some .Response
  else if b = 0xfe then some .Async
  else none

/-- DeviceID from src/packet.rs: Core = 0, Bootloader = 1, Sphero = 2. -/
inductive DeviceID
  | Core
  | Bootloader
  | Sphero
deriving DecidableEq

/-- Discriminant byte of a DeviceID value. -/
def DeviceID.toByte : DeviceID → Nat
  | .Core => 0x00
  | .Bootloader => 0x01
  | .Sphero => 0x02

/-- Derived deku reader for DeviceID. -/
def DeviceID.fromByte (b : Nat) : Option DeviceID :=
  if b = 0x00 then some .Core
  else if b = 0x01 then some .Bootloader
  else if b = 0x02 then some .Sphero
  else none

/-- MRSPField from src/packet.rs: the closed response-status enumeration.
There is no fallback variant; the derived reader fails on any other byte. -/
inductive MRSPField
  | Ok
  | GeneralError
  | ChecksumError
  | FragmentError
  | UnknownCommandError
  | UnsupportedCommandError
  | BadMessageFormatError
  | InvalidParameterError
  | ExecuteError
  | UnknownDeviceError
  | LowVoltageError
  | IllegalPageError
  | FlashFailError
  | MainAppCorruptError
  | MsgTimeoutError
deriving DecidableEq

/-- Discriminant byte of an MRSPField value. -/
def MRSPField.toByte : MRSPField → Nat
  | .Ok => 0x00
  | .GeneralError => 0x01
  | .ChecksumError => 0x02
  | .FragmentError => 0x03
  | .UnknownCommandError => 0x04
  | .UnsupportedCommandError => 0x05
  | .BadMessageFormatError => 0x06
  | .InvalidParameterError => 0x07
  | .ExecuteError => 0x08
  | .UnknownDeviceError => 0x09
  | .LowVoltageError => 0x31
  | .IllegalPageError => 0x32
  | .FlashFailError => 0x33
  | .MainAppCorruptError => 0x34
  | .MsgTimeoutError => 0x35

/-- Derived deku reader for MRSPField: exactly the fifteen listed
discriminants parse; every other byte is a parse failure. -/
def MRSPField.fromByte (b : Nat) : Option MRSPField :=
  if b = 0x00 then some .Ok
  else if b = 0x01 then some .GeneralError
  else if b = 0x02 then some .ChecksumError
  else if b = 0x03 then some .FragmentError
  else if b = 0x04 then some .UnknownCommandError
  else if b = 0x05 then some .UnsupportedCommandError
  else if b = 0x06 then some .BadMessageFormatError
  else if b = 0x07 then some .InvalidParameterError
  else if b = 0x08 then some .ExecuteError
  else if b = 0x09 then some .UnknownDeviceError
  else if b = 0x31 then some .LowVoltageError
  else if b = 0x32 then some .IllegalPageError
  else if b = 0x33 then some .FlashFailError
  else if b = 0x34 then some .MainAppCorruptError
  else if b = 0x35 then some .MsgTimeoutError
  else none

/-- Wrapping u8 addition, the step of the checksum fold in src/packet.rs. -/
def wadd8 (a b : Nat) : Nat := (a + b) % 256

/-- calculate_checksum from src/packet.rs: fold wrapping_add over fields
chained with data starting from 0, then bitwise complement (the u8 NOT of
a value below 256 is its xor with 255). -/
def calculate_checksum (fields data : List Nat) : Nat :=
  255 ^^^ (data.foldl wadd8 (fields.foldl wadd8 0))

/-- SpheroCommandPacketV1 from src/packet.rs, fields in declaration order. -/
structure SpheroCommandPacketV1 where
  sop1 : SOP1Field
  sop2 : SOP2Field
  did : DeviceID
  cid : Nat
  seq : Nat
  dlen : Nat
  data : List Nat
  chk : Nat
deriving DecidableEq

/-- SpheroResponsePacketV1 from src/packet.rs, fields in declaration order. -/
structure SpheroResponsePacketV1 where
  sop1 : SOP1Field
  sop2 : SOP2Field
  mrsp : MRSPField
  seq : Nat
  dlen : Nat
  data : List Nat
  chk : Nat
deriving DecidableEq

/-- SpheroAsynchronousPacketV1 from src/packet.rs; dlen is a u16 field. -/
structure SpheroAsynchronousPacketV1 where
  sop1 : SOP1Field
  sop2 : SOP2Field
  idcode : Nat
  dlen : Nat
  data : List Nat
  chk : Nat
deriving DecidableEq

/-- Derived deku writer for SpheroCommandPacketV1: fields in order, the
Vec field emitting its elements. -/
def SpheroCommandPacketV1.to_bytes (p : SpheroCommandPacketV1) : List Nat :=
  p.sop1.toByte :: p.sop2.toByte :: p.did.toByte :: p.cid :: p.seq :: p.dlen
    :: (p.data ++ [p.chk])

/-- Derived deku writer for SpheroResponsePacketV1. -/
def SpheroResponsePacketV1.to_bytes (p : SpheroResponsePacketV1) : List Nat :=
  p.sop1.toByte :: p.sop2.toByte :: p.mrsp.toByte :: p.seq :: p.dlen
    :: (p.data ++ [p.chk])

/-- Derived deku writer for SpheroAsynchronousPacketV1.  The u16 dlen has
no endian attribute, so deku uses the target endianness: little-endian on
every target this crate builds for, hence low byte before high byte. -/
def SpheroAsynchronousPacketV1.to_bytes (p : SpheroAsynchronousPacketV1) : List Nat :=
  p.sop1.toByte :: p.sop2.toByte :: p.idcode :: (p.dlen % 256) :: (p.dlen / 256 % 256)
    :: (p.data ++ [p.chk])

/-- Read exactly n bytes from the front of a buffer, as deku does for a
Vec field with a count attribute; fails when the buffer is shorter. -/
def takeExact : Nat → List Nat → Option (List Nat × List Nat)
  | 0, l => some ([], l)
  | _ + 1, [] => none
  | n + 1, b :: l => (takeExact n l).map fun p => (b :: p.1, p.2)

/-- Derived deku reader for SpheroCommandPacketV1.  The count expression
dlen - 1 is u8 subtraction, wrapping on underflow (release semantics), so
it is modelled as (dlen + 255) % 256.  Returns the packet and the unread
remainder of the buffer, as from_bytes does. -/
def SpheroCommandPacketV1.from_bytes (buf : List Nat) :
    Option (SpheroCommandPacketV1 × List Nat) :=
  match buf with
  | b1 :: b2 :: b3 :: b4 :: b5 :: b6 :: rest => do
    let sop1 ← SOP1Field.fromByte b1
    let sop2 ← SOP2Field.fromByte b2
    let did ← DeviceID.fromByte b3
    let (data, rest2) ← takeExact ((b6 + 255) % 256) rest
    match rest2 with
    | chk :: rest3 => some (⟨sop1, sop2, did, b4, b5, b6, data, chk⟩, rest3)
    | [] => none
  | _ => none

/-- Derived deku reader for SpheroResponsePacketV1: same scheme, with the
closed MRSPField enumeration in third position. -/
def SpheroResponsePacketV1.from_bytes (buf : List Nat) :
    Option (SpheroResponsePacketV1 × List Nat) :=
  match buf with
  | b1 :: b2 :: b3 :: b4 :: b5 :: rest => do
    let sop1 ← SOP1Field.fromByte b1
    let sop2 ← SOP2Field.fromByte b2
    let mrsp ← MRSPField.fromByte b3
    let (data, rest2) ← takeExact ((b5 + 255) % 256) rest
    match rest2 with
    | chk :: rest3 => some (⟨sop1, sop2, mrsp, b4, b5, data, chk⟩, rest3)
    | [] => none
  | _ => none

/-- Derived deku reader for SpheroAsynchronousPacketV1: the u16 dlen is
read with target (little) endianness, and the u16 count expression
dlen - 1 wraps as (dlen + 65535) % 65536. -/
def SpheroAsynchronousPacketV1.from_bytes (buf : List Nat) :
    Option (SpheroAsynchronousPacketV1 × List Nat) :=
  match buf with
  | b1 :: b2 :: b3 :: b4 :: b5 :: rest => do
    let sop1 ← SOP1Field.fromByte b1
    let sop2 ← SOP2Field.fromByte b2
    let dlen := b4 + 256 * b5
    let (data, rest2) ← takeExact ((dlen + 65535) % 65536) rest
    match rest2 with
    | chk :: rest3 => some (⟨sop1, sop2, b3, dlen, data, chk⟩, rest3)
    | [] => none
  | _ => none

/-- SpheroCommandPacketV1::new from src/packet.rs.  The Rust constructor
is infallible: data.len() as u8 + 1 truncates the length to u8 and adds 1
with machine arithmetic, modelled by its release (wrapping) semantics;
a debug build panics on the overflow at data.len() % 256 = 255. -/
def SpheroCommandPacketV1.new (did : DeviceID) (sid seq : Nat) (data : List Nat) :
    SpheroCommandPacketV1 :=
  let dlen := (data.length % 256 + 1) % 256
  { sop1 := .All, sop2 := .Response, did := did, cid := sid, seq := seq,
    dlen := dlen, data := data,
    chk := calculate_checksum [did.toByte, sid, seq, dlen] data }

/-- Rust bool-to-u8 cast used by the builders. -/
def boolByte (b : Bool) : Nat := if b then 1 else 0

/-- Ping builder from src/command.rs. -/
structure Ping

/-- GetVersioning builder from src/command.rs. -/
structure GetVersioning

/-- GetBluetoothInfo builder from src/command.rs. -/
structure GetBluetoothInfo

/-- SetRGBLEDOutput builder from src/command.rs. -/
structure SetRGBLEDOutput where
  red : Nat
  green : Nat
  blue : Nat
  flag : Bool

/-- SetBackLEDOutput builder from src/command.rs. -/
structure SetBackLEDOutput where
  brightness : Nat

/-- Roll builder from src/command.rs; heading is a u16. -/
structure Roll where
  speed : Nat
  heading : Nat
  state : Bool

/-- SetDataStreaming builder from src/command.rs; n, m are u16, mask1 and
the optional mask2 are u32. -/
structure SetDataStreaming where
  n : Nat
  m : Nat
  mask1 : Nat
  pcnt : Nat
  mask2 : Option Nat

/-- to_packet for Ping: device Core, command 0x01, empty payload. -/
def Ping.to_packet (_ : Ping) (seq : Nat) : SpheroCommandPacketV1 :=
  SpheroCommandPacketV1.new .Core 0x01 seq []

/-- to_packet for GetVersioning: device Core, command 0x02, empty payload. -/
def GetVersioning.to_packet (_ : GetVersioning) (seq : Nat) : SpheroCommandPacketV1 :=
  SpheroCommandPacketV1.new .Core 0x02 seq []

/-- to_packet for GetBluetoothInfo: device Core, command 0x11, empty payload. -/
def GetBluetoothInfo.to_packet (_ : GetBluetoothInfo) (seq : Nat) : SpheroCommandPacketV1 :=
  SpheroCommandPacketV1.new .Core 0x11 seq []

/-- to_packet for SetRGBLEDOutput: device Sphero, command 0x20,
payload red, green, blue, flag cast to a byte. -/
def SetRGBLEDOutput.to_packet (c : SetRGBLEDOutput) (seq : Nat) : SpheroCommandPacketV1 :=
  SpheroCommandPacketV1.new .Sphero 0x20 seq [c.red, c.green, c.blue, boolByte c.flag]

/-- to_packet for SetBackLEDOutput: device Sphero, command 0x21,
payload brightness. -/
def SetBackLEDOutput.to_packet (c : SetBackLEDOutput) (seq : Nat) : SpheroCommandPacketV1 :=
  SpheroCommandPacketV1.new .Sphero 0x21 seq [c.brightness]

/-- to_packet for Roll: device Sphero, command 0x30, payload speed, the
two big-endian bytes of the u16 heading, state cast to a byte. -/
def Roll.to_packet (c : Roll) (seq : Nat) : SpheroCommandPacketV1 :=
  SpheroCommandPacketV1.new .Sphero 0x30 seq
    [c.speed, c.heading / 256 % 256, c.heading % 256, boolByte c.state]

/-- Big-endian byte pair of a u16, as to_be_bytes yields in src/command.rs. -/
def beBytes16 (x : Nat) : List Nat := [x / 256 % 256, x % 256]

/-- Big-endian byte quadruple of a u32, as to_be_bytes yields. -/
def beBytes32 (x : Nat) : List Nat :=
  [x / 16777216 % 256, x / 65536 % 256, x / 256 % 256, x % 256]

/-- to_packet for SetDataStreaming: device Sphero, command 0x11, payload
N, M (big-endian u16), mask1 (big-endian u32), pcnt, and, when present,
mask2 (big-endian u32). -/
def SetDataStreaming.to_packet (c : SetDataStreaming) (seq : Nat) : SpheroCommandPacketV1 :=
  match c.mask2 with
  | some mask2 =>
      SpheroCommandPacketV1.new .Sphero 0x11 seq
        (beBytes16 c.n ++ beBytes16 c.m ++ beBytes32 c.mask1 ++ [c.pcnt] ++ beBytes32 mask2)
  | none =>
      SpheroCommandPacketV1.new .Sphero 0x11 seq
        (beBytes16 c.n ++ beBytes16 c.m ++ beBytes32 c.mask1 ++ [c.pcnt])

/-- Modelled from the spec: the legacy SLIP codec is described in the
specification but absent from the source tree; escaping replaces exactly
the three reserved byte values 0xAB, 0x8D, 0xD8 by their two-byte
sequences and leaves every other byte unchanged. -/
def escapeByte (b : Nat) : List Nat :=
  if b = 0xAB then [0xAB, 0x23]
  else if b = 0x8D then [0xAB, 0x05]
  else if b = 0xD8 then [0xAB, 0x50]
  else [b]

/-- Modelled from the spec: SLIP-escape a whole payload byte by byte. -/
def escape : List Nat → List Nat
  | [] => []
  | b :: p => escapeByte b ++ escape p

/-- Modelled from the spec: SLIP-unescape, consuming each recognised
escape pair as an atomic two-byte unit and never re-examining the second
byte of a consumed pair. -/
def unescape : List Nat → List Nat
  | [] => []
  | [b] => [b]
  | b :: c :: rest =>
    if b = 0xAB then
      if c = 0x23 then 0xAB :: unescape rest
      else if c = 0x05 then 0x8D :: unescape rest
      else if c = 0x50 then 0xD8 :: unescape rest
      else b :: unescape (c :: rest)
    else b :: unescape (c :: rest)

/-- The wrapping fold of the checksum equals the plain sum modulo 256. -/
lemma foldl_wadd8_eq (l : List Nat) : ∀ a : Nat, l.foldl wadd8 (a % 256) = (a + l.sum) % 256 := by
  induction l with
  | nil => intro a; simp
  | cons b l ih =>
    intro a
    have h1 : wadd8 (a % 256) b = (a + b) % 256 := by
      simp [wadd8, Nat.mod_add_mod]
    simp only [List.foldl_cons, List.sum_cons, h1]
    rw [ih (a + b)]
    omega

/-- calculate_checksum in closed form: complement of the sum modulo 256. -/
lemma calculate_checksum_eq (f d : List Nat) :
    calculate_checksum f d = 255 ^^^ ((f ++ d).sum % 256) := by
  unfold calculate_checksum
  have h0 : f.foldl wadd8 0 = f.sum % 256 := by
    simpa using foldl_wadd8_eq f 0
  rw [h0, foldl_wadd8_eq d f.sum, List.sum_append]

/-- For byte-sized values, xor with 255 is subtraction from 255. -/
lemma xor_255_eq_sub (x : Nat) (h : x < 256) : 255 ^^^ x = 255 - x := by
  interval_cases x <;> rfl

/-- takeExact splits an appended buffer at the exact length. -/
lemma takeExact_append (l r : List Nat) : takeExact l.length (l ++ r) = some (l, r) := by
  induction l with
  | nil => rfl
  | cons b l ih => simp [takeExact, ih]

/-- takeExact consumes the whole buffer when asked for its full length. -/
lemma takeExact_full (l : List Nat) : takeExact l.length l = some (l, []) := by
  simpa using takeExact_append l []

/-- takeExact fails on a buffer shorter than the requested count. -/
lemma takeExact_short (n : Nat) (l : List Nat) (h : l.length < n) : takeExact n l = none := by
  induction l generalizing n with
  | nil =>
    cases n with
    | zero => omega
    | succ n => rfl
  | cons b l ih =>
    cases n with
    | zero => omega
    | succ n =>
      have : l.length < n := by simpa using h
      simp [takeExact, ih n this]

/-- Enum discriminant round trip for SOP1Field. -/
lemma sop1_fromByte_toByte (x : SOP1Field) : SOP1Field.fromByte x.toByte = some x := by
  cases x
  rfl

/-- Enum discriminant round trip for SOP2Field. -/
lemma sop2_fromByte_toByte (x : SOP2Field) : SOP2Field.fromByte x.toByte = some x := by
  cases x <;> rfl

/-- Enum discriminant round trip for DeviceID. -/
lemma did_fromByte_toByte (x : DeviceID) : DeviceID.fromByte x.toByte = some x := by
  cases x <;> rfl

/-- Enum discriminant round trip for MRSPField. -/
lemma mrsp_fromByte_toByte (x : MRSPField) : MRSPField.fromByte x.toByte = some x := by
  cases x <;> rfl

/-- Any command packet whose dlen field is consistent with its payload
round-trips through the derived writer and reader, whatever its chk. -/
lemma command_roundtrip (p : SpheroCommandPacketV1) (h : p.dlen = p.data.length + 1)
    (hlen : p.data.length ≤ 254) :
    SpheroCommandPacketV1.from_bytes p.to_bytes = some (p, []) := by
  obtain ⟨s1, s2, did, cid, seq, dlen, data, chk⟩ := p
  simp only at h hlen
  subst h
  have hc : (data.length + 1 + 255) % 256 = data.length := by omega
  simp [SpheroCommandPacketV1.to_bytes, SpheroCommandPacketV1.from_bytes,
    sop1_fromByte_toByte, sop2_fromByte_toByte, did_fromByte_toByte, hc,
    takeExact_append]

/-- Any response packet whose dlen field is consistent with its payload
round-trips through the derived writer and reader, whatever its chk. -/
lemma response_roundtrip (p : SpheroResponsePacketV1) (h : p.dlen = p.data.length + 1)
    (hlen : p.data.length ≤ 254) :
    SpheroResponsePacketV1.from_bytes p.to_bytes = some (p, []) := by
  obtain ⟨s1, s2, mrsp, seq, dlen, data, chk⟩ := p
  simp only at h hlen
  subst h
  have hc : (data.length + 1 + 255) % 256 = data.length := by omega
  simp [SpheroResponsePacketV1.to_bytes, SpheroResponsePacketV1.from_bytes,
    sop1_fromByte_toByte, sop2_fromByte_toByte, mrsp_fromByte_toByte, hc,
    takeExact_append]

/-- Any async packet whose u16 dlen field is consistent with its payload
round-trips, the little-endian byte pair reassembling to the same dlen. -/
lemma async_roundtrip (p : SpheroAsynchronousPacketV1) (h : p.dlen = p.data.length + 1)
    (hlen : p.data.length ≤ 65534) :
    SpheroAsynchronousPacketV1.from_bytes p.to_bytes = some (p, []) := by
  obtain ⟨s1, s2, idcode, dlen, data, chk⟩ := p
  simp only at h hlen
  subst h
  have hre : data.length + 1 < 65536 := by omega
  have hd : (data.length + 1) % 256 + 256 * ((data.length + 1) / 256 % 256)
      = data.length + 1 := by omega
  have hc : (data.length + 1 + 65535) % 65536 = data.length := by omega
  simp only [SpheroAsynchronousPacketV1.to_bytes, SpheroAsynchronousPacketV1.from_bytes,
    sop1_fromByte_toByte, sop2_fromByte_toByte, hd, hc, takeExact_append,
    Option.bind_some, Option.some_bind]
  simp [hd, hc, takeExact_append]

/-- C6: calculate_checksum equals the bitwise complement of the modulo-256
sum of all bytes of fields followed by data (stated both as xor with 255
and as subtraction from 255), and it is invariant under re-splitting the
two arguments as long as the concatenated byte order is unchanged. -/
theorem C6_checksum_complement_split (f1 d1 f2 d2 : List Nat) (h : f1 ++ d1 = f2 ++ d2) :
    calculate_checksum f1 d1 = 255 ^^^ ((f1 ++ d1).sum % 256) ∧
    calculate_checksum f1 d1 = 255 - ((f1 ++ d1).sum % 256) ∧
    calculate_checksum f1 d1 = calculate_checksum f2 d2 := by
  refine ⟨calculate_checksum_eq f1 d1, ?_, ?_⟩
  · rw [calculate_checksum_eq, xor_255_eq_sub _ (Nat.mod_lt _ (by norm_num))]
  · rw [calculate_checksum_eq, calculate_checksum_eq, h]

/-- Witness for C6 at the concrete split [1,2]/[3] versus [1]/[2,3]. -/
theorem C6_checksum_complement_split_witness :
    (([1, 2] : List Nat) ++ [3] = [1] ++ [2, 3]) ∧
    (calculate_checksum [1, 2] [3] = 255 ^^^ ((([1, 2] : List Nat) ++ [3]).sum % 256) ∧
     calculate_checksum [1, 2] [3] = 255 - ((([1, 2] : List Nat) ++ [3]).sum % 256) ∧
     calculate_checksum [1, 2] [3] = calculate_checksum [1] [2, 3]) :=
  ⟨rfl, C6_checksum_complement_split [1, 2] [3] [1] [2, 3] rfl⟩

/-- C7: the Ping builder at sequence 0x00 serializes to exactly
FF FF 00 01 00 01 FD. -/
theorem C7_ping_serialization :
    (Ping.to_packet ⟨⟩ 0x00).to_bytes = [0xFF, 0xFF, 0x00, 0x01, 0x00, 0x01, 0xFD] := by
  decide

/-- C8: the legacy SLIP unescape function inverts the escape function on
every payload byte sequence, the escape replacing exactly the three
reserved byte values by their two-byte sequences and altering no other
byte (definitions modelled from the spec; the legacy codec is absent from
the source tree). -/
theorem C8_unescape_escape (p : List Nat) : unescape (escape p) = p := by
  induction p with
  | nil => rfl
  | cons b p ih =>
    rcases eq_or_ne b 0xAB with hab | hab
    · subst hab
      simp [escape, escapeByte, unescape, ih]
    rcases eq_or_ne b 0x8D with h8 | h8
    · subst h8
      simp [escape, escapeByte, unescape, ih]
    rcases eq_or_ne b 0xD8 with hd | hd
    · subst hd
      simp [escape, escapeByte, unescape, ih]
    · have hE : escape (b :: p) = b :: escape p := by
        simp [escape, escapeByte, hab, h8, hd]
      rw [hE]
      cases hq : escape p with
      | nil =>
        have hp : p = [] := by rw [← ih, hq]; rfl
        subst hp
        simp [unescape]
      | cons c rest =>
        rw [hq] at ih
        simp [unescape, hab, ih]

/-- C1: for every valid field combination, deserializing the serialized
bytes of a v1 packet yields the original packet, for the command shape
(built by new), the response shape, and the async shape (each with its
derived dlen and checksum fields). -/
theorem C1_v1_roundtrip
    (did : DeviceID) (cid seq : Nat) (cdata : List Nat) (hc : cdata.length ≤ 254)
    (mrsp : MRSPField) (rseq : Nat) (rdata : List Nat) (hr : rdata.length ≤ 254)
    (idcode : Nat) (adata : List Nat) (ha : adata.length ≤ 65534) :
    SpheroCommandPacketV1.from_bytes (SpheroCommandPacketV1.new did cid seq cdata).to_bytes
      = some (SpheroCommandPacketV1.new did cid seq cdata, []) ∧
    SpheroResponsePacketV1.from_bytes
        (SpheroResponsePacketV1.to_bytes
          ⟨.All, .Response, mrsp, rseq, rdata.length + 1, rdata,
            calculate_checksum [mrsp.toByte, rseq, rdata.length + 1] rdata⟩)
      = some (⟨.All, .Response, mrsp, rseq, rdata.length + 1, rdata,
            calculate_checksum [mrsp.toByte, rseq, rdata.length + 1] rdata⟩, []) ∧
    SpheroAsynchronousPacketV1.from_bytes
        (SpheroAsynchronousPacketV1.to_bytes
          ⟨.All, .Async, idcode, adata.length + 1, adata,
            calculate_checksum
              [idcode, (adata.length + 1) / 256 % 256, (adata.length + 1) % 256] adata⟩)
      = some (⟨.All, .Async, idcode, adata.length + 1, adata,
            calculate_checksum
              [idcode, (adata.length + 1) / 256 % 256, (adata.length + 1) % 256] adata⟩, []) := by
  refine ⟨?_, response_roundtrip _ rfl hr, async_roundtrip _ rfl ha⟩
  apply command_roundtrip
  · show (cdata.length % 256 + 1) % 256 = cdata.length + 1
    omega
  · exact hc

/-- Witness for C1 at Core ping-like fields, an Ok response carrying [5],
and an async event 3 carrying [1, 2]. -/
theorem C1_v1_roundtrip_witness :
    (([] : List Nat).length ≤ 254 ∧ ([5] : List Nat).length ≤ 254 ∧
      ([1, 2] : List Nat).length ≤ 65534) ∧
    (SpheroCommandPacketV1.from_bytes (SpheroCommandPacketV1.new .Core 1 0 []).to_bytes
        = some (SpheroCommandPacketV1.new .Core 1 0 [], []) ∧
     SpheroResponsePacketV1.from_bytes
         (SpheroResponsePacketV1.to_bytes ⟨.All, .Response, .Ok, 0, 2, [5], 248⟩)
       = some (⟨.All, .Response, .Ok, 0, 2, [5], 248⟩, []) ∧
     SpheroAsynchronousPacketV1.from_bytes
         (SpheroAsynchronousPacketV1.to_bytes ⟨.All, .Async, 3, 3, [1, 2], 246⟩)
       = some (⟨.All, .Async, 3, 3, [1, 2], 246⟩, [])) :=
  ⟨⟨by decide, by decide, by decide⟩,
    C1_v1_roundtrip .Core 1 0 [] (by decide) .Ok 0 [5] (by decide) 3 [1, 2] (by decide)⟩

/-- C2 counterexample: the response frame FF FF 00 00 01 FD carries the
checksum byte FD although the recomputed checksum over its header fields
and (empty) payload is FE, yet decoding succeeds rather than failing,
storing the corrupted byte in chk. -/
theorem C2_checksum_mismatch_decodes_cex :
    SpheroResponsePacketV1.from_bytes [0xFF, 0xFF, 0x00, 0x00, 0x01, 0xFD]
      = some (⟨.All, .Response, .Ok, 0x00, 0x01, [], 0xFD⟩, []) ∧
    calculate_checksum [0x00, 0x00, 0x01] [] ≠ 0xFD := by
  decide

/-- C2 amended: the derived reader performs no checksum verification at
all; a response frame with a consistent dlen decodes successfully
whatever its checksum byte, the byte being stored as read. -/
theorem C2_decode_ignores_checksum (mrsp : MRSPField) (seq : Nat) (data : List Nat)
    (chk : Nat) (h : data.length ≤ 254) :
    SpheroResponsePacketV1.from_bytes
        (0xFF :: 0xFF :: mrsp.toByte :: seq :: (data.length + 1) :: (data ++ [chk]))
      = some (⟨.All, .Response, mrsp, seq, data.length + 1, data, chk⟩, []) :=
  response_roundtrip ⟨.All, .Response, mrsp, seq, data.length + 1, data, chk⟩ rfl h

/-- Witness for C2 at the empty-payload Ok frame with corrupted chk FD. -/
theorem C2_decode_ignores_checksum_witness :
    (([] : List Nat).length ≤ 254) ∧
    SpheroResponsePacketV1.from_bytes
        (0xFF :: 0xFF :: MRSPField.Ok.toByte :: 0 :: (([] : List Nat).length + 1)
          :: (([] : List Nat) ++ [0xFD]))
      = some (⟨.All, .Response, .Ok, 0, ([] : List Nat).length + 1, [], 0xFD⟩, []) :=
  ⟨by decide, C2_decode_ignores_checksum .Ok 0 [] 0xFD (by decide)⟩

/-- C3 counterexample: 0x0B is not a documented status code, and the
response frame FF FF 0B 00 01 F3 (whose checksum is even correct) fails
to decode instead of succeeding with an Unused carrier. -/
theorem C3_unknown_status_fails_cex :
    MRSPField.fromByte 0x0B = none ∧
    SpheroResponsePacketV1.from_bytes [0xFF, 0xFF, 0x0B, 0x00, 0x01, 0xF3] = none := by
  decide

/-- C3 amended: a response frame whose status byte matches no variant of
the closed MRSPField enumeration is a decode failure; no value carrying
the raw code is produced by the packet codec. -/
theorem C3_unknown_status_decode_fails (s b4 b5 : Nat) (rest : List Nat)
    (h : MRSPField.fromByte s = none) :
    SpheroResponsePacketV1.from_bytes (0xFF :: 0xFF :: s :: b4 :: b5 :: rest) = none := by
  simp [SpheroResponsePacketV1.from_bytes, SOP1Field.fromByte, SOP2Field.fromByte, h]

/-- Witness for C3 at status byte 0x0B. -/
theorem C3_unknown_status_decode_fails_witness :
    MRSPField.fromByte 0x0B = none ∧
    SpheroResponsePacketV1.from_bytes (0xFF :: 0xFF :: 0x0B :: 0x00 :: 0x01 :: [0xF3]) = none :=
  ⟨by decide, C3_unknown_status_decode_fails 0x0B 0x00 0x01 [0xF3] (by decide)⟩

set_option maxRecDepth 4000 in
/-- C4 counterexample: new accepts a 255-byte payload without reporting
any error, producing a packet whose dlen wrapped to 0 instead of being
the payload length plus one. -/
theorem C4_new_overflow_cex :
    (SpheroCommandPacketV1.new .Core 0x01 0x00 (List.replicate 255 0x00)).dlen = 0 ∧
    (SpheroCommandPacketV1.new .Core 0x01 0x00 (List.replicate 255 0x00)).data.length = 255 ∧
    (SpheroCommandPacketV1.new .Core 0x01 0x00 (List.replicate 255 0x00)).dlen
      ≠ (List.replicate 255 (0x00 : Nat)).length + 1 := by
  decide

/-- C4 amended: new is infallible and never reports BadDataLength; its
dlen field is the wrapping value (payload length + 1) mod 256, which
equals payload length + 1 exactly when the payload holds at most 254
bytes (a debug build panics on the u8 overflow instead of wrapping). -/
theorem C4_new_dlen_wrapping (did : DeviceID) (cid seq : Nat) (data : List Nat) :
    (SpheroCommandPacketV1.new did cid seq data).dlen = (data.length + 1) % 256 ∧
    ((SpheroCommandPacketV1.new did cid seq data).dlen = data.length + 1
      ↔ data.length ≤ 254) := by
  constructor
  · show (data.length % 256 + 1) % 256 = (data.length + 1) % 256
    omega
  · show (data.length % 256 + 1) % 256 = data.length + 1 ↔ data.length ≤ 254
    omega

/-- C5 at the failing input: the async packet with idcode 7 and one
payload byte AA (dlen 2) serializes its u16 dlen low byte first, 02 00,
not in the big-endian order 00 02 that the claim and the module header
comment state (deku uses target endianness for the unattributed u16
field); conversely the spec-conformant big-endian frame
FF FE 07 00 02 AA 4C fails to decode, the reader assembling dlen = 512
from the swapped bytes and running out of input. -/
theorem C5_async_dlen_little_endian :
    SpheroAsynchronousPacketV1.to_bytes
        ⟨.All, .Async, 0x07, 2, [0xAA], calculate_checksum [0x07, 0x00, 0x02] [0xAA]⟩
      = [0xFF, 0xFE, 0x07, 0x02, 0x00, 0xAA, 0x4C] ∧
    SpheroAsynchronousPacketV1.from_bytes [0xFF, 0xFE, 0x07, 0x00, 0x02, 0xAA, 0x4C]
      = none := by
  decide

set_option maxRecDepth 4000 in
/-- C9 counterexample: a command frame and a response frame whose
data-length byte is 0x00 both decode successfully when 256 further bytes
follow: the u8 count expression dlen - 1 wraps to 255 and each reader
consumes 255 payload bytes plus a checksum byte instead of returning an
error. -/
theorem C9_dlen_zero_succeeds_cex :
    SpheroCommandPacketV1.from_bytes
        ([0xFF, 0xFF, 0x00, 0x00, 0x00, 0x00] ++ List.replicate 255 0x00 ++ [0x00])
      = some (⟨.All, .Response, .Core, 0x00, 0x00, 0x00, List.replicate 255 0x00, 0x00⟩, []) ∧
    SpheroResponsePacketV1.from_bytes
        ([0xFF, 0xFF, 0x00, 0x00, 0x00] ++ List.replicate 255 0x00 ++ [0x00])
      = some (⟨.All, .Response, .Ok, 0x00, 0x00, List.replicate 255 0x00, 0x00⟩, []) := by
  constructor <;> decide

/-- C9 amended: under the release (wrapping) semantics of the u8 count
expression, a data-length byte of 0x00 makes both the command reader and
the response reader demand 255 payload bytes plus a checksum byte:
decoding returns an error on any shorter remainder and succeeds,
consuming 255 payload bytes, on any longer one (a debug build panics on
the underflow instead). -/
theorem C9_dlen_zero_wraps (did : DeviceID) (mrsp : MRSPField) (cid seq : Nat)
    (rest data : List Nat) (chk : Nat) (tail : List Nat)
    (hshort : rest.length < 256) (hdata : data.length = 255) :
    SpheroCommandPacketV1.from_bytes
        (0xFF :: 0xFF :: did.toByte :: cid :: seq :: 0x00 :: rest) = none ∧
    SpheroCommandPacketV1.from_bytes
        (0xFF :: 0xFF :: did.toByte :: cid :: seq :: 0x00 :: (data ++ chk :: tail))
      = some (⟨.All, .Response, did, cid, seq, 0x00, data, chk⟩, tail) ∧
    SpheroResponsePacketV1.from_bytes
        (0xFF :: 0xFF :: mrsp.toByte :: seq :: 0x00 :: rest) = none ∧
    SpheroResponsePacketV1.from_bytes
        (0xFF :: 0xFF :: mrsp.toByte :: seq :: 0x00 :: (data ++ chk :: tail))
      = some (⟨.All, .Response, mrsp, seq, 0x00, data, chk⟩, tail) := by
  have h : takeExact 255 (data ++ chk :: tail) = some (data, chk :: tail) := by
    rw [← hdata]
    exact takeExact_append data (chk :: tail)
  refine ⟨?_, ?_, ?_, ?_⟩
  · rcases Nat.lt_or_ge rest.length 255 with hl | hl
    · simp [SpheroCommandPacketV1.from_bytes, SOP1Field.fromByte, SOP2Field.fromByte,
        did_fromByte_toByte, takeExact_short 255 rest hl]
    · have h255 : rest.length = 255 := by omega
      have hfull := takeExact_full rest
      rw [h255] at hfull
      simp [SpheroCommandPacketV1.from_bytes, SOP1Field.fromByte, SOP2Field.fromByte,
        did_fromByte_toByte, hfull]
  · simp [SpheroCommandPacketV1.from_bytes, SOP1Field.fromByte, SOP2Field.fromByte,
      did_fromByte_toByte, h]
  · rcases Nat.lt_or_ge rest.length 255 with hl | hl
    · simp [SpheroResponsePacketV1.from_bytes, SOP1Field.fromByte, SOP2Field.fromByte,
        mrsp_fromByte_toByte, takeExact_short 255 rest hl]
    · have h255 : rest.length = 255 := by omega
      have hfull := takeExact_full rest
      rw [h255] at hfull
      simp [SpheroResponsePacketV1.from_bytes, SOP1Field.fromByte, SOP2Field.fromByte,
        mrsp_fromByte_toByte, hfull]
  · simp [SpheroResponsePacketV1.from_bytes, SOP1Field.fromByte, SOP2Field.fromByte,
      mrsp_fromByte_toByte, h]

set_option maxRecDepth 4000 in
/-- Witness for C9 at a truncated frame and at a full 255-byte payload
frame with one trailing byte, for the command and the response reader. -/
theorem C9_dlen_zero_wraps_witness :
    (([] : List Nat).length < 256 ∧ (List.replicate 255 (0x00 : Nat)).length = 255) ∧
    (SpheroCommandPacketV1.from_bytes
        (0xFF :: 0xFF :: DeviceID.Core.toByte :: 0 :: 0 :: 0x00 :: ([] : List Nat)) = none ∧
     SpheroCommandPacketV1.from_bytes
        (0xFF :: 0xFF :: DeviceID.Core.toByte :: 0 :: 0 :: 0x00
          :: (List.replicate 255 0x00 ++ 0x07 :: [1]))
      = some (⟨.All, .Response, .Core, 0, 0, 0x00, List.replicate 255 0x00, 0x07⟩, [1]) ∧
     SpheroResponsePacketV1.from_bytes
        (0xFF :: 0xFF :: MRSPField.Ok.toByte :: 0 :: 0x00 :: ([] : List Nat)) = none ∧
     SpheroResponsePacketV1.from_bytes
        (0xFF :: 0xFF :: MRSPField.Ok.toByte :: 0 :: 0x00
          :: (List.replicate 255 0x00 ++ 0x07 :: [1]))
      = some (⟨.All, .Response, .Ok, 0, 0x00, List.replicate 255 0x00, 0x07⟩, [1])) :=
  ⟨⟨by decide, by decide⟩,
    C9_dlen_zero_wraps .Core .Ok 0 0 [] (List.replicate 255 0x00) 0x07 [1]
      (by decide) (by decide)⟩

/-- Header invariant of a v1 command packet: fixed start markers, dlen
counting the payload plus the checksum byte, and chk the complement of
the wrapping 8-bit sum of the header fields followed by the payload. -/
def headerInvariant (p : SpheroCommandPacketV1) : Prop :=
  p.sop1 = SOP1Field.All ∧ p.sop2 = SOP2Field.Response ∧ p.dlen = p.data.length + 1 ∧
  p.chk = 255 ^^^ ((p.did.toByte + p.cid + p.seq + p.dlen + p.data.sum) % 256)

/-- Packets built by new satisfy the header invariant whenever the
payload fits the one-byte data-length field. -/
lemma new_headerInvariant (did : DeviceID) (sid seq : Nat) (data : List Nat)
    (h : data.length ≤ 254) :
    headerInvariant (SpheroCommandPacketV1.new did sid seq data) := by
  refine ⟨rfl, rfl, ?_, ?_⟩
  · show (data.length % 256 + 1) % 256 = data.length + 1
    omega
  · show calculate_checksum [did.toByte, sid, seq, (data.length % 256 + 1) % 256] data
        = 255 ^^^ ((did.toByte + sid + seq + (data.length % 256 + 1) % 256 + data.sum) % 256)
    rw [calculate_checksum_eq]
    congr 1
    simp only [List.sum_append, List.sum_cons, List.sum_nil]
    omega

/-- C10: every command builder, at every sequence value and all field
values, produces a packet satisfying the header invariant: sop1 = 0xFF,
sop2 = 0xFF, dlen = payload length + 1, and chk the complement of the
wrapping 8-bit sum of device-id, command-id, sequence and dlen followed
by the payload bytes. -/
theorem C10_builders_header_invariant (seq red green blue : Nat) (flag : Bool)
    (brightness speed heading : Nat) (state : Bool) (n m mask1 pcnt : Nat)
    (mask2 : Option Nat) :
    headerInvariant (Ping.to_packet ⟨⟩ seq) ∧
    headerInvariant (GetVersioning.to_packet ⟨⟩ seq) ∧
    headerInvariant (GetBluetoothInfo.to_packet ⟨⟩ seq) ∧
    headerInvariant (SetRGBLEDOutput.to_packet ⟨red, green, blue, flag⟩ seq) ∧
    headerInvariant (SetBackLEDOutput.to_packet ⟨brightness⟩ seq) ∧
    headerInvariant (Roll.to_packet ⟨speed, heading, state⟩ seq) ∧
    headerInvariant (SetDataStreaming.to_packet ⟨n, m, mask1, pcnt, mask2⟩ seq) := by
  refine ⟨new_headerInvariant _ _ _ _ (by decide), new_headerInvariant _ _ _ _ (by decide),
    new_headerInvariant _ _ _ _ (by decide), new_headerInvariant _ _ _ _ (by simp),
    new_headerInvariant _ _ _ _ (by simp), new_headerInvariant _ _ _ _ (by simp), ?_⟩
  cases mask2 with
  | none => exact new_headerInvariant _ _ _ _ (by simp [beBytes16, beBytes32])
  | some v => exact new_headerInvariant _ _ _ _ (by simp [beBytes16, beBytes32])
